import Mathlib

/-!
Verification of the ixchel telescope-control core against its specification.

The definitions below are a shallow embedding of the Python source:

* `Ixchel.dispatch`        — `IxchelCommand.parse` (src/ixchel_command.py, lines 125-189),
  from the point where a `DispatchEntry` has matched the operator text;
* `Pinpoint.pinpointRun`   — `IxchelCommand._pinpoint` (src/ixchel_command.py, lines 330-504);
* `Catalog.*`              — the `telescope_interfaces` table and the `TelescopeInterface`
  class (src/telescope_interface.py);
* `Transport.*`            — the `SSH` class (src/telescope.py, lines 8-53).

Stateful Python is embedded as explicit state passing; side effects that the claims
mention (chat replies, thread spawns, remote commands) are reified as event lists;
Python exceptions are embedded as `Except` errors.
-/

namespace Ixchel

/-- One entry of the Active Worker Registry: mirrors `CommandThread` in
src/ixchel_command.py (thread handle abstracted to its `is_alive()` status,
plus the originating command text and principal name). -/
structure CommandThread where
  alive : Bool
  command : String
  user : String
deriving DecidableEq, Repr

/-- The part of a `DispatchEntry` that the admission logic of `parse` reads:
whether the entry carries `"lock": True`, and whether its handler is the
designated abort handler (`cmd["function"] == self.abort`). -/
structure Cmd where
  lock : Bool
  isAbort : Bool
deriving DecidableEq, Repr

/-- The `\abort` entry of `init_commands` (src/ixchel_command.py lines 2630-2636):
`"regex": r"^\\abort$", "function": self.abort, "lock": True`. -/
def abortEntry : Cmd := { lock := true, isAbort := true }

/-- Dispatcher state read and written by `parse`: the Active Worker Registry
(`self.threads`) and the Shared Abort Flag (module global `doAbort`, accessed
through the mutex-guarded `getDoAbort`/`setDoAbort`). -/
structure DispState where
  threads : List CommandThread
  doAbort : Bool
deriving DecidableEq, Repr

/-- Observable effects of one `parse` call. -/
inductive Ev where
  | send (msg : String)
  | spawn (cmdText : String)
deriving DecidableEq, Repr

/-- `"Please lock the telescope before calling this command."` -/
def lockMsg : String := "Please lock the telescope before calling this command."

/-- `"No commands to abort."` -/
def noAbortMsg : String := "No commands to abort."

/-- `"Aborting current command (%s). Please wait..." % (self.threads[0].command)` -/
def abortingMsg (c : String) : String :=
  "Aborting current command (" ++ c ++ "). Please wait..."

/-- `"Please wait for the current command (%s) to complete." % (self.threads[0].command)` -/
def busyMsg (c : String) : String :=
  "Please wait for the current command (" ++ c ++ ") to complete."

/-- The body of `IxchelCommand.parse` after a table entry `cmd` has matched the
operator text (src/ixchel_command.py lines 135-186), as a function of the matched
entry, the matched text, the principal's lock status (`self.is_locked_by(user)`),
the lock-sharing session flag (`self.share`), the principal name, and the current
dispatcher state.  Returns the new state and the emitted events, in order:

1. lock gate: `"lock" in cmd and cmd["lock"] == True and not is_locked_by and not share`;
2. prune: `self.threads = [t for t in self.threads if t.thread.is_alive()]`;
3. abort branch: reply and set/clear the Shared Abort Flag, never spawning;
4. busy branch: reply naming `self.threads[0].command`, spawning nothing;
5. admission: append a `CommandThread` for the matched text and start it. -/
def dispatch (cmd : Cmd) (text : String) (lockedBy share : Bool) (user : String)
    (s : DispState) : DispState × List Ev :=
  if cmd.lock && !lockedBy && !share then
    (s, [.send lockMsg])
  else
    let pruned := s.threads.filter (fun t => t.alive)
    if cmd.isAbort then
      match pruned with
      | [] => ({ threads := pruned, doAbort := false }, [.send noAbortMsg])
      | t :: _ => ({ threads := pruned, doAbort := true }, [.send (abortingMsg t.command)])
    else
      match pruned with
      | t :: _ => ({ s with threads := pruned }, [.send (busyMsg t.command)])
      | [] =>
        ({ s with threads := pruned ++ [{ alive := true, command := text, user := user }] },
         [.spawn text])

/-- Number of live entries in the Active Worker Registry. -/
def liveCount (s : DispState) : Nat :=
  (s.threads.filter (fun t => t.alive)).length

/-- Every branch of the dispatcher keeps the number of live workers at or below one:
lock rejection and the abort branch spawn nothing, the busy branch only prunes,
and admission happens only when the pruned registry is empty. -/
theorem liveCount_dispatch_le (cmd : Cmd) (text : String) (lockedBy share : Bool)
    (user : String) (s : DispState) (h : liveCount s ≤ 1) :
    liveCount (dispatch cmd text lockedBy share user s).1 ≤ 1 := by
  unfold dispatch
  split
  · exact h
  · dsimp only
    split
    · split
      · simpa [liveCount] using h
      · next t rest heq =>
        simp only [liveCount]
        calc ((s.threads.filter (fun t => t.alive)).filter (fun t => t.alive)).length
            ≤ (s.threads.filter (fun t => t.alive)).length := List.length_filter_le _ _
          _ ≤ 1 := h
    · split
      · next t rest heq =>
        simp only [liveCount]
        calc ((s.threads.filter (fun t => t.alive)).filter (fun t => t.alive)).length
            ≤ (s.threads.filter (fun t => t.alive)).length := List.length_filter_le _ _
          _ ≤ 1 := h
      · next heq =>
        simp [liveCount, heq]

end Ixchel

namespace Ixchel

/-- **C1.** A dispatch whose matched entry is not the abort handler and passes the
lock gate, issued while the pruned Active Worker Registry is non-empty, replies with
the "please wait" message naming the in-flight command's text, spawns no worker and
leaves the registry with exactly the pruned live workers; and (for any dispatch at
all) the single-flight invariant `liveCount ≤ 1` is preserved, so at most one
non-abort worker is alive at any time. -/
theorem parse_busy_rejects_and_preserves_single_flight
    (cmd : Cmd) (text : String) (lockedBy share : Bool) (user : String) (s : DispState)
    (t : CommandThread) (rest : List CommandThread)
    (hgate : (cmd.lock && !lockedBy && !share) = false)
    (habort : cmd.isAbort = false)
    (hbusy : s.threads.filter (fun t => t.alive) = t :: rest)
    (cmd₂ : Cmd) (text₂ : String) (lb₂ sh₂ : Bool) (u₂ : String) (s₂ : DispState)
    (hone : liveCount s₂ ≤ 1) :
    dispatch cmd text lockedBy share user s
      = ({ s with threads := t :: rest }, [.send (busyMsg t.command)])
    ∧ liveCount (dispatch cmd₂ text₂ lb₂ sh₂ u₂ s₂).1 ≤ 1 := by
  refine ⟨?_, liveCount_dispatch_le cmd₂ text₂ lb₂ sh₂ u₂ s₂ hone⟩
  simp [dispatch, hgate, habort, hbusy]

/-- Witness for C1 at a concrete busy state. -/
theorem parse_busy_rejects_and_preserves_single_flight_witness :
    dispatch { lock := true, isAbort := false } "\\image 10 1 clear" true false "anna"
        { threads := [{ alive := true, command := "\\pinpoint 1", user := "ben" }],
          doAbort := false }
      = ({ threads := [{ alive := true, command := "\\pinpoint 1", user := "ben" }],
           doAbort := false },
         [.send (busyMsg "\\pinpoint 1")])
    ∧ liveCount (dispatch { lock := true, isAbort := false } "\\image 10 1 clear" true false
        "anna"
        { threads := [{ alive := true, command := "\\pinpoint 1", user := "ben" }],
          doAbort := false }).1 ≤ 1 :=
  parse_busy_rejects_and_preserves_single_flight
    { lock := true, isAbort := false } "\\image 10 1 clear" true false "anna"
    { threads := [{ alive := true, command := "\\pinpoint 1", user := "ben" }],
      doAbort := false }
    { alive := true, command := "\\pinpoint 1", user := "ben" } []
    (by decide) (by decide) (by decide)
    { lock := true, isAbort := false } "\\image 10 1 clear" true false "anna"
    { threads := [{ alive := true, command := "\\pinpoint 1", user := "ben" }],
      doAbort := false }
    (by decide)

/-- **C3.** An admitted abort request (the matched entry is the abort handler and the
lock gate passes) never spawns a worker: with an empty pruned registry it replies
"No commands to abort." and leaves the Shared Abort Flag cleared; with a live worker
it replies naming the in-flight command's text and leaves the flag set. -/
theorem parse_abort_protocol
    (text : String) (lockedBy share : Bool) (user : String)
    (s₁ s₂ : DispState) (t : CommandThread) (rest : List CommandThread)
    (hgate : lockedBy = true ∨ share = true)
    (h₁ : s₁.threads.filter (fun t => t.alive) = [])
    (h₂ : s₂.threads.filter (fun t => t.alive) = t :: rest) :
    dispatch abortEntry text lockedBy share user s₁
      = ({ threads := [], doAbort := false }, [.send noAbortMsg])
    ∧ dispatch abortEntry text lockedBy share user s₂
      = ({ threads := t :: rest, doAbort := true }, [.send (abortingMsg t.command)]) := by
  rcases hgate with h | h <;>
    exact ⟨by simp [dispatch, abortEntry, h, h₁], by simp [dispatch, abortEntry, h, h₂]⟩

/-- Witness for C3 at concrete idle and busy states. -/
theorem parse_abort_protocol_witness :
    dispatch abortEntry "\\abort" true false "anna"
        { threads := [{ alive := false, command := "\\image 5 1 h-alpha", user := "ben" }],
          doAbort := true }
      = ({ threads := [], doAbort := false }, [.send noAbortMsg])
    ∧ dispatch abortEntry "\\abort" true false "anna"
        { threads := [{ alive := true, command := "\\pinpoint 1", user := "ben" }],
          doAbort := false }
      = ({ threads := [{ alive := true, command := "\\pinpoint 1", user := "ben" }],
           doAbort := true },
         [.send (abortingMsg "\\pinpoint 1")]) :=
  parse_abort_protocol "\\abort" true false "anna"
    { threads := [{ alive := false, command := "\\image 5 1 h-alpha", user := "ben" }],
      doAbort := true }
    { threads := [{ alive := true, command := "\\pinpoint 1", user := "ben" }],
      doAbort := false }
    { alive := true, command := "\\pinpoint 1", user := "ben" } []
    (Or.inl rfl) (by decide) (by decide)

/-- **C10.** An abort request from a principal who neither holds the instrument lock
(`is_locked_by` is false) nor benefits from lock sharing (`share` is false) is
rejected with the lock message before the abort protocol runs: the state — including
the Shared Abort Flag and the worker registry — is returned unchanged, and nothing
is spawned.  (The `\abort` entry of `init_commands` carries `"lock": True`.) -/
theorem parse_abort_without_lock_rejected (text user : String) (s : DispState) :
    dispatch abortEntry text false false user s = (s, [.send lockMsg]) := by
  simp [dispatch, abortEntry]

end Ixchel

namespace Pinpoint

/-- Outcome of one iteration's image capture followed by plate-solving
(`_get_image` returning success/failure, then the `pinpoint` interface's
`ra_image`/`dec_image` outputs), supplied by the environment. -/
inductive Obs where
  | captureFail
  | solved (raImage decImage : ℚ)
deriving DecidableEq, Repr

/-- The configuration values `_pinpoint` reads
(`min_ra_offset`, `min_dec_offset`, `max_ra_offset`, `max_dec_offset`, `max_tries`). -/
structure PinCfg where
  minRaOffset : ℚ
  minDecOffset : ℚ
  maxRaOffset : ℚ
  maxDecOffset : ℚ
  maxTries : Nat
deriving DecidableEq, Repr

/-- The environment of one `_pinpoint` call: the filter reported by
`_get_filter()` at entry, the per-iteration capture/plate-solve outcomes, and the
value of the process-wide Shared Abort Flag (`doAbort`) during the call. -/
structure PinEnv where
  entryFilter : String
  obs : Nat → Obs
  doAbort : Bool

/-- Remote commands issued by `_pinpoint`, in order. -/
inductive PinEv where
  | track
  | centerDome
  | pointCmd
  | setFilter (name : String)
  | capture (iter : Nat)
  | solveCmd (iter : Nat)
  | offsetCmd (dRA dDEC : ℚ)
deriving DecidableEq, Repr

/-- Result of a `_pinpoint` call: the returned boolean, the issued remote
commands, and the value of `self.hdr` on return. -/
structure PinRes where
  ok : Bool
  evs : List PinEv
  hdr : Bool
deriving DecidableEq, Repr

/-- Python's `abs()` on a rational value. -/
def rabs (q : ℚ) : ℚ := if q < 0 then -q else q

/-- The "change filter back to original_filter" block that `_pinpoint` runs on
each exit path (src/ixchel_command.py lines 409-414, 447-452, 472-477, 486-491,
497-502).  Note that the source calls `self._set_filter(filter)` — the filter
used during the loop — not `self._set_filter(original_filter)`. -/
def restoreEvents (origFilter filt : String) : List PinEv :=
  if origFilter ≠ filt then [.setFilter filt] else []

/-- The `while iteration < max_tries` loop of `_pinpoint`
(src/ixchel_command.py lines 398-492), with `remaining = max_tries - iteration`
as fuel.  Each iteration: capture (`_get_image` first re-issues
`_set_filter(filter)`, line 1231), then on capture success plate-solve, compute
`ra_offset`/`dec_offset` with the `> 350` wraparound on RA only, and take the
converged / correct-and-retry / too-large branch; `self.hdr` is restored from
the saved value on every return. -/
def pinLoop (cfg : PinCfg) (raTarget decTarget : ℚ) (filt origFilter : String)
    (hdrSaved : Bool) (obs : Nat → Obs) : Nat → Nat → PinRes
  | 0, _ =>
    { ok := false, evs := restoreEvents origFilter filt, hdr := hdrSaved }
  | remaining + 1, iteration =>
    let evs0 : List PinEv := [.setFilter filt, .capture iteration]
    match obs iteration with
    | .captureFail =>
      { ok := false, evs := evs0 ++ restoreEvents origFilter filt, hdr := hdrSaved }
    | .solved raImage decImage =>
      let evs1 := evs0 ++ [.solveCmd iteration]
      let raOffset0 := raTarget - raImage
      let raOffset := if raOffset0 > 350 then raOffset0 - 360 else raOffset0
      let decOffset := decTarget - decImage
      if rabs raOffset ≤ cfg.minRaOffset ∧ rabs decOffset ≤ cfg.minDecOffset then
        { ok := true, evs := evs1 ++ restoreEvents origFilter filt, hdr := hdrSaved }
      else if rabs raOffset ≤ cfg.maxRaOffset ∧ rabs decOffset ≤ cfg.maxDecOffset then
        let rest := pinLoop cfg raTarget decTarget filt origFilter hdrSaved obs
          remaining (iteration + 1)
        { rest with evs := evs1 ++ [.offsetCmd raOffset decOffset] ++ rest.evs }
      else
        { ok := false, evs := evs1 ++ restoreEvents origFilter filt, hdr := hdrSaved }

/-- The whole of `_pinpoint` (src/ixchel_command.py lines 330-504): save and clear
`self.hdr`, issue the redundant track / center-dome calls and the initial `point`,
read the current filter, switch to the pinpoint filter if it differs, then run the
convergence loop.  The Shared Abort Flag (`env.doAbort`) is never consulted: the
function body contains no `getDoAbort()` call. -/
def pinpointRun (cfg : PinCfg) (env : PinEnv) (raTarget decTarget : ℚ)
    (filt : String) (hdr0 : Bool) : PinRes :=
  let hdrSaved := hdr0
  let pre : List PinEv := [.track, .centerDome, .pointCmd]
  let origFilter := env.entryFilter
  let pre := pre ++ (if origFilter ≠ filt then [.setFilter filt] else [])
  let r := pinLoop cfg raTarget decTarget filt origFilter hdrSaved env.obs cfg.maxTries 0
  { r with evs := pre ++ r.evs }

/-- The filter in effect after a run, obtained by replaying the `setFilter`
commands over the filter in effect at entry. -/
def finalFilter (entry : String) (evs : List PinEv) : String :=
  evs.foldl (fun f e => match e with | .setFilter g => g | _ => f) entry

/-- `obs` lies in the correct-and-retry region: capture succeeded and the computed
offsets are outside the convergence tolerance but within the safety bound. -/
def retryObs (cfg : PinCfg) (raTarget decTarget : ℚ) : Obs → Bool
  | .captureFail => false
  | .solved raImage decImage =>
    let raOffset0 := raTarget - raImage
    let raOffset := if raOffset0 > 350 then raOffset0 - 360 else raOffset0
    let decOffset := decTarget - decImage
    !(decide (rabs raOffset ≤ cfg.minRaOffset ∧ rabs decOffset ≤ cfg.minDecOffset))
      && decide (rabs raOffset ≤ cfg.maxRaOffset ∧ rabs decOffset ≤ cfg.maxDecOffset)

/-- **C2.** One iteration of the convergence loop after a successful plate-solve:
the offsets are `raOffset = targetRa - solvedRa` with 360 subtracted exactly when
the raw value exceeds 350, and `decOffset = targetDec - solvedDec` with no
wraparound; within the min tolerances the loop returns success issuing no
correction; else within the max bounds it issues exactly one corrective offset
`(raOffset, decOffset)` and continues; else it returns failure immediately with no
correction.  With the fuel exhausted the loop returns failure (a value, not an
exception), and a run whose every observation stays in the correct-and-retry
region terminates with failure after its iterations run out. -/
theorem pinpoint_iteration_and_termination
    (cfg : PinCfg) (raTarget decTarget : ℚ) (filt origFilter : String) (hdrSaved : Bool)
    (obs : Nat → Obs) (remaining iteration : Nat) (raImage decImage : ℚ)
    (hobs : obs iteration = .solved raImage decImage)
    (obs₂ : Nat → Obs) (m j : Nat)
    (hretry : ∀ n, retryObs cfg raTarget decTarget (obs₂ n) = true) :
    (pinLoop cfg raTarget decTarget filt origFilter hdrSaved obs (remaining + 1) iteration =
      (let raOffset0 := raTarget - raImage
       let raOffset := if raOffset0 > 350 then raOffset0 - 360 else raOffset0
       let decOffset := decTarget - decImage
       if rabs raOffset ≤ cfg.minRaOffset ∧ rabs decOffset ≤ cfg.minDecOffset then
         { ok := true,
           evs := [.setFilter filt, .capture iteration, .solveCmd iteration]
             ++ restoreEvents origFilter filt,
           hdr := hdrSaved }
       else if rabs raOffset ≤ cfg.maxRaOffset ∧ rabs decOffset ≤ cfg.maxDecOffset then
         let rest := pinLoop cfg raTarget decTarget filt origFilter hdrSaved obs
           remaining (iteration + 1)
         { ok := rest.ok,
           evs := [.setFilter filt, .capture iteration, .solveCmd iteration]
             ++ [.offsetCmd raOffset decOffset] ++ rest.evs,
           hdr := rest.hdr }
       else
         { ok := false,
           evs := [.setFilter filt, .capture iteration, .solveCmd iteration]
             ++ restoreEvents origFilter filt,
           hdr := hdrSaved }))
    ∧ pinLoop cfg raTarget decTarget filt origFilter hdrSaved obs 0 iteration =
        { ok := false, evs := restoreEvents origFilter filt, hdr := hdrSaved }
    ∧ (pinLoop cfg raTarget decTarget filt origFilter hdrSaved obs₂ m j).ok = false := by
  refine ⟨?_, rfl, ?_⟩
  · simp only [pinLoop, hobs]
    split <;> split <;> rfl
  · induction m generalizing j with
    | zero => rfl
    | succ m ih =>
      have h := hretry j
      cases hobs2 : obs₂ j with
      | captureFail => rw [hobs2] at h; simp [retryObs] at h
      | solved a b =>
        rw [hobs2] at h
        simp only [retryObs, Bool.and_eq_true, Bool.not_eq_true', decide_eq_false_iff_not,
          decide_eq_true_eq] at h
        obtain ⟨hmin, hmax⟩ := h
        simp only [pinLoop, hobs2]
        rw [if_neg hmin, if_pos hmax]
        exact ih (j + 1)

/-- A concrete tolerance configuration used by the witnesses below: the spec's
default values `min_ra_offset = min_dec_offset = 0.05`, `max_ra_offset =
max_dec_offset = 50.0`, `max_tries = 5`. -/
def cfg0 : PinCfg :=
  { minRaOffset := 1/20, minDecOffset := 1/20, maxRaOffset := 50,
    maxDecOffset := 50, maxTries := 5 }

/-- Witness for C2: the spec's own test vector — target RA 359.5°, solved RA 0.2°
(raw offset 359.3° > 350°, corrected −0.7°), tolerances min 0.05° / max 50°:
the observation lies in the correct-and-retry region. -/
theorem pinpoint_iteration_and_termination_witness :
    (pinLoop cfg0 (719/2) 10 "h-alpha" "clear" false
        (fun _ => .solved (1/5) 10) 5 0 =
      (let raOffset0 : ℚ := 719/2 - 1/5
       let raOffset := if raOffset0 > 350 then raOffset0 - 360 else raOffset0
       let decOffset : ℚ := 10 - 10
       if rabs raOffset ≤ (1/20 : ℚ) ∧ rabs decOffset ≤ (1/20 : ℚ) then
         { ok := true,
           evs := [.setFilter "h-alpha", .capture 0, .solveCmd 0]
             ++ restoreEvents "clear" "h-alpha",
           hdr := false }
       else if rabs raOffset ≤ (50 : ℚ) ∧ rabs decOffset ≤ (50 : ℚ) then
         let rest := pinLoop cfg0 (719/2) 10
           "h-alpha" "clear" false (fun _ => .solved (1/5) 10) 4 1
         { ok := rest.ok,
           evs := [.setFilter "h-alpha", .capture 0, .solveCmd 0]
             ++ [.offsetCmd raOffset decOffset] ++ rest.evs,
           hdr := rest.hdr }
       else
         { ok := false,
           evs := [.setFilter "h-alpha", .capture 0, .solveCmd 0]
             ++ restoreEvents "clear" "h-alpha",
           hdr := false }))
    ∧ pinLoop cfg0 (719/2) 10 "h-alpha" "clear" false
        (fun _ => .solved (1/5) 10) 0 0 =
        { ok := false, evs := restoreEvents "clear" "h-alpha", hdr := false }
    ∧ (pinLoop cfg0 (719/2) 10 "h-alpha" "clear" false
        (fun _ => .solved (1/5) 10) 3 0).ok = false :=
  pinpoint_iteration_and_termination
    cfg0 (719/2) 10 "h-alpha" "clear" false
    (fun _ => .solved (1/5) 10) 4 0 (1/5) 10 rfl
    (fun _ => .solved (1/5) 10) 3 0
    (by intro n
        show retryObs cfg0 (719/2) 10 (.solved (1/5) 10) = true
        norm_num [retryObs, rabs, cfg0])

/-- **C6.** Evaluation of `_pinpoint` at concrete inputs where the filter at entry
("clear") differs from the pinpoint filter ("h-alpha"): on the convergence-success,
capture-failure, safety-bound and iteration-exhaustion exit paths the saved HDR
mode is restored, but the filter left in effect is the loop filter "h-alpha", not
the entry filter — the restore block calls `_set_filter(filter)` instead of
`_set_filter(original_filter)`, contradicting its own comments. -/
theorem pinpoint_filter_restore_bug :
    (let r := pinpointRun cfg0 ⟨"clear", fun _ => .solved 150 20, false⟩
        150 20 "h-alpha" true
     r.ok = true ∧ r.hdr = true ∧ finalFilter "clear" r.evs = "h-alpha")
    ∧ (let r := pinpointRun cfg0 ⟨"clear", fun _ => .captureFail, false⟩
        150 20 "h-alpha" true
       r.ok = false ∧ r.hdr = true ∧ finalFilter "clear" r.evs = "h-alpha")
    ∧ (let r := pinpointRun cfg0 ⟨"clear", fun _ => .solved 100 20, false⟩
        150 20 "h-alpha" true
       r.ok = false ∧ r.hdr = true ∧ finalFilter "clear" r.evs = "h-alpha")
    ∧ (let r := pinpointRun cfg0 ⟨"clear", fun _ => .solved 50 20, false⟩
        150 20 "h-alpha" true
       r.ok = false ∧ r.hdr = true ∧ finalFilter "clear" r.evs = "h-alpha")
    ∧ "h-alpha" ≠ "clear" := by
  norm_num [pinpointRun, pinLoop, restoreEvents, rabs, cfg0, finalFilter]
  simp +decide

/-- **C7 counterexample.** A run begun with the Shared Abort Flag set still captures
an image for iteration 0 and returns success: the convergence loop does not stop,
does not report cancellation and does not return failure when the flag is set. -/
theorem pinpoint_runs_with_abort_flag_set :
    (let r := pinpointRun cfg0 ⟨"clear", fun _ => .solved 150 20, true⟩
        150 20 "h-alpha" false
     r.ok = true ∧ PinEv.capture 0 ∈ r.evs) := by
  norm_num [pinpointRun, pinLoop, restoreEvents, rabs, cfg0]

/-- **C7 (amended).** The body of `_pinpoint` contains no `getDoAbort()` call, so
the whole run — result, issued commands and final HDR state — is independent of
the Shared Abort Flag. -/
theorem pinpoint_independent_of_abort_flag
    (cfg : PinCfg) (raTarget decTarget : ℚ) (filt entry : String) (hdr0 : Bool)
    (obs : Nat → Obs) (b₁ b₂ : Bool) :
    pinpointRun cfg ⟨entry, obs, b₁⟩ raTarget decTarget filt hdr0
      = pinpointRun cfg ⟨entry, obs, b₂⟩ raTarget decTarget filt hdr0 := rfl

end Pinpoint

namespace Catalog

/-- One input slot of a `telescope_interfaces` entry: the mutable `value` field
and the optional `default` field. -/
structure InSlot where
  value : Option String
  dflt : Option String
deriving DecidableEq, Repr

/-- One output slot of a `telescope_interfaces` entry: extraction pattern,
mutable `value` field, declared type name, and the `optional` flag
(`.get('optional', False)`). -/
structure OutSlot where
  regex : String
  value : Option String
  ty : String
  optional : Bool
deriving DecidableEq, Repr

/-- One named entry of `telescope_interfaces`: command template, optional
`is_background` key, input slots and output slots in declaration order. -/
structure Spec where
  command : String
  isBackground : Option Bool
  inputs : List (String × InSlot)
  outputs : List (String × OutSlot)
deriving DecidableEq, Repr

def telescopeInterfaces : List (String × Spec) := [
  ("track",
   { command := "tx track {on_off}",
     isBackground := none,
     inputs := [("on_off", { value := none, dflt := none })],
     outputs := [("ha", { regex := "(?<=ha=).*?(?= )", value := none, ty := "float", optional := false }),
       ("dec", { regex := "(?<=dec=).*?$", value := none, ty := "float", optional := false })] }),
  ("get_track",
   { command := "tx track",
     isBackground := none,
     inputs := [("on_off", { value := none, dflt := none })],
     outputs := [("ha", { regex := "(?<=ha=).*?(?= )", value := none, ty := "float", optional := false }),
       ("dec", { regex := "(?<=dec=).*?$", value := none, ty := "float", optional := false })] }),
  ("point",
   { command := "tx point ra={ra} dec={dec}",
     isBackground := none,
     inputs := [("ra", { value := none, dflt := none }),
       ("dec", { value := none, dflt := none })],
     outputs := [("move", { regex := "(?<=move=).*?(?= )", value := none, ty := "float", optional := false }),
       ("dist", { regex := "(?<=dist=).*?$", value := none, ty := "float", optional := false })] }),
  ("get_image_hdr",
   { command := "mkdir -p {path}; image {dark} time={exposure} bin={bin} outfile={path}{fname} lowfile={path}{low_fname}",
     isBackground := none,
     inputs := [("exposure", { value := none, dflt := none }),
       ("bin", { value := none, dflt := none }),
       ("path", { value := none, dflt := none }),
       ("fname", { value := none, dflt := none }),
       ("low_fname", { value := none, dflt := none }),
       ("dark", { value := none, dflt := some "" })],
     outputs := [("error", { regex := "^.*$", value := none, ty := "str", optional := false })] }),
  ("get_image",
   { command := "mkdir -p {path}; image {dark} time={exposure} bin={bin} outfile={path}{fname}",
     isBackground := none,
     inputs := [("exposure", { value := none, dflt := none }),
       ("bin", { value := none, dflt := none }),
       ("path", { value := none, dflt := none }),
       ("fname", { value := none, dflt := none }),
       ("dark", { value := none, dflt := some "" })],
     outputs := [("error", { regex := "^.*$", value := none, ty := "str", optional := false })] }),
  ("get_dome",
   { command := "tx dome",
     isBackground := none,
     inputs := [],
     outputs := [("az", { regex := "(?<=az=).*?$", value := none, ty := "str", optional := false })] }),
  ("center_dome",
   { command := "tx dome center",
     isBackground := none,
     inputs := [],
     outputs := [("az", { regex := "(?<=az=).*?$", value := none, ty := "str", optional := false })] }),
  ("home_domer",
   { command := "tx home domer",
     isBackground := none,
     inputs := [],
     outputs := [("az_hit", { regex := "(?<=az_hit=).*?(?= )", value := none, ty := "float", optional := false }),
       ("rem", { regex := "(?<=rem=).*?$", value := none, ty := "str", optional := false })] }),
  ("home_domel",
   { command := "tx home domel",
     isBackground := none,
     inputs := [],
     outputs := [("az_hit", { regex := "(?<=az_hit=).*?(?= )", value := none, ty := "float", optional := false }),
       ("rem", { regex := "(?<=rem=).*?$", value := none, ty := "str", optional := false })] }),
  ("get_lights",
   { command := "tx lamps",
     isBackground := none,
     inputs := [],
     outputs := [("1_on_off", { regex := "(?<=one=).*?(?= )", value := none, ty := "str", optional := false }),
       ("2_on_off", { regex := "(?<=two=).*?(?= )", value := none, ty := "str", optional := false }),
       ("3_on_off", { regex := "(?<=three=).*?(?= )", value := none, ty := "str", optional := false }),
       ("4_on_off", { regex := "(?<=four=).*?(?= )", value := none, ty := "str", optional := false }),
       ("5_on_off", { regex := "(?<=five=).*?(?= )", value := none, ty := "str", optional := false }),
       ("6_on_off", { regex := "(?<=six=).*?(?= )", value := none, ty := "str", optional := false }),
       ("7_on_off", { regex := "(?<=seven=).*?(?= )", value := none, ty := "str", optional := false }),
       ("8_on_off", { regex := "(?<=eight=).*?$", value := none, ty := "str", optional := false })] }),
  ("set_lights",
   { command := "tx lamps {light_number}={on_off}",
     isBackground := none,
     inputs := [("light_number", { value := none, dflt := none }),
       ("on_off", { value := none, dflt := none })],
     outputs := [("on_off", { regex := "(?<=one=).*?(?= )", value := none, ty := "str", optional := false })] }),
  ("get_mirror",
   { command := "tx mirror",
     isBackground := none,
     inputs := [],
     outputs := [("open_close", { regex := "(?<=state=).*?$", value := none, ty := "str", optional := false })] }),
  ("set_mirror",
   { command := "tx mirror {open_close}",
     isBackground := none,
     inputs := [("open_close", { value := none, dflt := none })],
     outputs := [("open_close", { regex := "(?<=state=).*?$", value := none, ty := "str", optional := false })] }),
  ("get_slit",
   { command := "tx slit",
     isBackground := none,
     inputs := [],
     outputs := [("open_close", { regex := "(?<=slit=).*?$", value := none, ty := "str", optional := false })] }),
  ("set_slit",
   { command := "tx slit {open_close}",
     isBackground := none,
     inputs := [("open_close", { value := none, dflt := none })],
     outputs := [("open_close", { regex := "(?<=slit=).*?$", value := none, ty := "str", optional := false })] }),
  ("get_ccd",
   { command := "tx ccd_status",
     isBackground := none,
     inputs := [],
     outputs := [("nrow", { regex := "(?<=nrow=).*?(?= )", value := none, ty := "int", optional := false }),
       ("ncol", { regex := "(?<=ncol=).*?(?= )", value := none, ty := "int", optional := false }),
       ("tchip", { regex := "(?<=tchip=).*?(?= )", value := none, ty := "float", optional := false }),
       ("setpoint", { regex := "(?<=setpoint=).*?(?= )", value := none, ty := "float", optional := false }),
       ("name", { regex := "(?<=name=).*?(?= )", value := none, ty := "str", optional := false }),
       ("drive", { regex := "(?<=drive=).*?(?= )", value := none, ty := "float", optional := false })] }),
  ("set_ccd",
   { command := "ccd {cool_warm} nowait setpoint={setpoint} && echo 1 || echo 0",
     isBackground := none,
     inputs := [("cool_warm", { value := none, dflt := none }),
       ("setpoint", { value := none, dflt := none })],
     outputs := [("success", { regex := "^[01]$", value := none, ty := "int", optional := false })] }),
  ("get_skycam",
   { command := "rm -f {skycam_remote_file_path}; spacam; mv spacam.jpg {skycam_remote_file_path};  [ -e \"{skycam_remote_file_path}\" ] && echo 1 || echo 0",
     isBackground := none,
     inputs := [("skycam_remote_file_path", { value := none, dflt := none }),
       ("skycam_local_file_path", { value := none, dflt := none })],
     outputs := [("success", { regex := "^[01]$", value := none, ty := "int", optional := false })] }),
  ("get_domecam",
   { command := "curl --progress-bar -o {domecam_remote_file_path} {domecam_image_url}",
     isBackground := none,
     inputs := [("domecam_image_url", { value := none, dflt := none }),
       ("domecam_remote_file_path", { value := none, dflt := none })],
     outputs := [("success", { regex := "100\\.0", value := none, ty := "str", optional := false })] }),
  ("to_stars",
   { command := "bash -c \"rsync -auvz --progress --files-from=<(find {image_dir} -mtime -3 -type f | sed -n \x27s|^{image_dir}||p\x27) {image_dir} {stars_user}@{stars_url}:{stars_remote_dir}\"",
     isBackground := some false,
     inputs := [("image_dir", { value := none, dflt := none }),
       ("stars_remote_dir", { value := none, dflt := none }),
       ("stars_key_path", { value := none, dflt := none }),
       ("stars_user", { value := none, dflt := none }),
       ("stars_url", { value := none, dflt := none }),
       ("year", { value := none, dflt := none }),
       ("date", { value := none, dflt := none })],
     outputs := [("error", { regex := "^.*$", value := none, ty := "str", optional := false })] }),
  ("offset",
   { command := "tx offset dec={dDEC} ra={dRA}",
     isBackground := some false,
     inputs := [("dRA", { value := none, dflt := none }),
       ("dDEC", { value := none, dflt := none })],
     outputs := [("success", { regex := "^done offset", value := none, ty := "str", optional := false })] }),
  ("psfex",
   { command := "{psfex_bin_path} {sextractor_cat_path} -c {psfex_cfg_path}",
     isBackground := some false,
     inputs := [("psfex_bin_path", { value := none, dflt := none }),
       ("sextractor_cat_path", { value := none, dflt := none }),
       ("psfex_cfg_path", { value := none, dflt := none })],
     outputs := [("success", { regex := "> All done", value := none, ty := "str", optional := false })] }),
  ("sextractor",
   { command := "{sextractor_bin_path} {path}{fname} -c {sextractor_sex_path} -CATALOG_NAME {sextractor_cat_path} -PARAMETERS_NAME {sextractor_param_path} -FILTER_NAME {sextractor_conv_path}",
     isBackground := some false,
     inputs := [("sextractor_bin_path", { value := none, dflt := none }),
       ("path", { value := none, dflt := none }),
       ("fname", { value := none, dflt := none }),
       ("sextractor_sex_path", { value := none, dflt := none }),
       ("sextractor_cat_path", { value := none, dflt := none }),
       ("sextractor_param_path", { value := none, dflt := none }),
       ("sextractor_conv_path", { value := none, dflt := none })],
     outputs := [("success", { regex := "> All done", value := none, ty := "str", optional := false })] }),
  ("pinpoint",
   { command := "{solve_field_path} --no-verify --overwrite --no-remove-lines --downsample {downsample} --scale-units arcsecperpix --no-plots --scale-low {scale_low} --scale-high {scale_high} --ra {ra_target} --dec {dec_target} --radius {radius} --cpulimit {cpulimit} {path}{fname}; rm -f {path}*.axy; rm -f {path}*.corr; rm -f {path}*.match; rm -f {path}*.new; rm -f {path}*.rdls; rm -f {path}*.solved; rm -f {path}*.wcs",
     isBackground := some false,
     inputs := [("solve_field_path", { value := none, dflt := none }),
       ("downsample", { value := none, dflt := none }),
       ("scale_low", { value := none, dflt := none }),
       ("scale_high", { value := none, dflt := none }),
       ("ra_target", { value := none, dflt := none }),
       ("dec_target", { value := none, dflt := none }),
       ("radius", { value := none, dflt := none }),
       ("cpulimit", { value := none, dflt := none }),
       ("fname", { value := none, dflt := none }),
       ("path", { value := none, dflt := none })],
     outputs := [("ra_image", { regex := "(?<=Field center: \\(RA,Dec\\) = \\().*?(?=\\,)", value := none, ty := "str", optional := false }),
       ("dec_image", { regex := "(?<=, ).*?(?=\\) deg.)", value := none, ty := "str", optional := false })] }),
  ("convert_fits_to_jpg_hdr",
   { command := "rm -f {jpg_file}; rm -f {tiff_file}; mv {fits_file_hdr} {fits_file}; stiffy {fits_file} {tiff_file}; convert -resize 50% -normalize -quality 75 {tiff_file} {jpg_file};  [ -e \"{jpg_file}\" ] && echo 1 || echo 0",
     isBackground := none,
     inputs := [("fits_file", { value := none, dflt := none }),
       ("fits_file_hdr", { value := none, dflt := none }),
       ("tiff_file", { value := none, dflt := none }),
       ("jpg_file", { value := none, dflt := none })],
     outputs := [("success", { regex := "^[01]$", value := none, ty := "int", optional := false })] }),
  ("convert_fits_to_jpg",
   { command := "rm -f {jpg_file}; rm -f {tiff_file}; stiffy {fits_file} {tiff_file}; convert -resize 50% -normalize -quality 75 {tiff_file} {jpg_file};  [ -e \"{jpg_file}\" ] && echo 1 || echo 0",
     isBackground := none,
     inputs := [("fits_file", { value := none, dflt := none }),
       ("tiff_file", { value := none, dflt := none }),
       ("jpg_file", { value := none, dflt := none })],
     outputs := [("success", { regex := "^[01]$", value := none, ty := "int", optional := false })] }),
  ("get_sun",
   { command := "sun",
     isBackground := none,
     inputs := [],
     outputs := [("alt", { regex := "(?<=alt=).*?$", value := none, ty := "float", optional := false })] }),
  ("get_moon",
   { command := "moon",
     isBackground := none,
     inputs := [],
     outputs := [("alt", { regex := "(?<=alt=).*?(?= )", value := none, ty := "float", optional := false }),
       ("phase", { regex := "(?<=phase=).*?(?= )", value := none, ty := "float", optional := false })] }),
  ("get_precipitation",
   { command := "tx taux",
     isBackground := none,
     inputs := [],
     outputs := [("clouds", { regex := "(?<=cloud=).*?(?= )", value := none, ty := "float", optional := false }),
       ("rain", { regex := "(?<=rain=).*?(?= )", value := none, ty := "float", optional := false }),
       ("dew", { regex := "(?<=dew=).*?$", value := none, ty := "float", optional := false })] }),
  ("get_filter",
   { command := "tx filter",
     isBackground := none,
     inputs := [],
     outputs := [("num", { regex := "(?<=num=).*?(?= )", value := none, ty := "int", optional := false }),
       ("name", { regex := "(?<=name=).*?$", value := none, ty := "str", optional := false })] }),
  ("set_filter",
   { command := "tx filter num={num}",
     isBackground := none,
     inputs := [("num", { value := none, dflt := none })],
     outputs := [("num", { regex := "(?<=num=).*?(?= )", value := none, ty := "int", optional := false }),
       ("name", { regex := "(?<=name=).*?$", value := none, ty := "str", optional := false })] }),
  ("get_focus",
   { command := "tx focus",
     isBackground := none,
     inputs := [],
     outputs := [("pos", { regex := "(?<=pos=)[0-9]+", value := none, ty := "int", optional := false })] }),
  ("set_focus",
   { command := "tx focus pos={pos}",
     isBackground := none,
     inputs := [("pos", { value := none, dflt := none })],
     outputs := [("pos", { regex := "(?<=pos=).*?$", value := none, ty := "int", optional := false })] }),
  ("get_lock",
   { command := "tx lock",
     isBackground := none,
     inputs := [],
     outputs := [("user", { regex := "(?<=user=).*?(?= )", value := none, ty := "str", optional := true }),
       ("email", { regex := "(?<=email=).*?(?= )", value := none, ty := "str", optional := true }),
       ("phone", { regex := "(?<=phone=).*?(?= )", value := none, ty := "str", optional := true }),
       ("comment", { regex := "(?<=comment=).*?(?= )", value := none, ty := "str", optional := true }),
       ("timestamp", { regex := "(?<=timestamp=).*?$", value := none, ty := "str", optional := true })] }),
  ("unlock",
   { command := "tx lock clear",
     isBackground := none,
     inputs := [],
     outputs := [("success", { regex := "^done lock", value := none, ty := "str", optional := false })] }),
  ("open_observatory",
   { command := "openup_nolock nocloud; keepopen kill maxtime=36000 slit >& /dev/null",
     isBackground := none,
     inputs := [],
     outputs := [("failure", { regex := "ERROR", value := none, ty := "str", optional := true })] }),
  ("keepopen",
   { command := "keepopen kill maxtime={maxtime} dome >& /dev/null",
     isBackground := none,
     inputs := [("maxtime", { value := none, dflt := none })],
     outputs := [] }),
  ("close_observatory",
   { command := "closedown_nolock; tx slit close; tx lock clear",
     isBackground := none,
     inputs := [],
     outputs := [("failure", { regex := "ERROR", value := none, ty := "str", optional := true })] }),
  ("clear_lock",
   { command := "tx lock clear",
     isBackground := none,
     inputs := [],
     outputs := [("success", { regex := "^done lock", value := none, ty := "str", optional := false })] }),
  ("set_lock",
   { command := "tx lock user={user}",
     isBackground := none,
     inputs := [("user", { value := none, dflt := none })],
     outputs := [("user", { regex := "(?<=user=).*?(?= )", value := none, ty := "str", optional := false }),
       ("email", { regex := "(?<=email=).*?(?= )", value := none, ty := "str", optional := true }),
       ("phone", { regex := "(?<=phone=).*?(?= )", value := none, ty := "str", optional := true }),
       ("comment", { regex := "(?<=comment=).*?(?= )", value := none, ty := "str", optional := true }),
       ("timestamp", { regex := "(?<=timestamp=).*?$", value := none, ty := "str", optional := true })] }),
  ("get_where",
   { command := "tx where",
     isBackground := none,
     inputs := [],
     outputs := [("ra", { regex := "(?<=ra=).*?(?= )", value := none, ty := "str", optional := false }),
       ("dec", { regex := "(?<=dec=).*?(?= )", value := none, ty := "str", optional := false }),
       ("alt", { regex := "(?<=alt=).*?(?= )", value := none, ty := "float", optional := false }),
       ("az", { regex := "(?<=az=).*?(?= )", value := none, ty := "float", optional := false }),
       ("slewing", { regex := "(?<=slewing=).*?$", value := none, ty := "int", optional := true })] })
]


end Catalog

namespace Catalog

/-- Python exception kinds raised by the embedded code paths. -/
inductive PyErr where
  | typeError
  | valueError (msg : String)
  | keyError (key : String)
  | nameError
deriving DecidableEq, Repr

/-- Python `%`-formatting restricted to `%s` placeholders, which is all the
formatting the embedded lines use: substitute arguments left to right; a
placeholder with no argument left, or a leftover argument once the format
string is exhausted, raises `TypeError` (CPython: "not enough arguments" /
"not all arguments converted during string formatting"). -/
def percentFormatGo : List Char → List String → Except PyErr String
  | [], [] => .ok ""
  | [], _ :: _ => .error .typeError
  | '%' :: 's' :: cs, a :: args => (percentFormatGo cs args).map (fun r => a ++ r)
  | '%' :: 's' :: _, [] => .error .typeError
  | c :: cs, args => (percentFormatGo cs args).map (fun r => String.singleton c ++ r)

/-- `fmt % args` for a tuple of string arguments. -/
def percentFormat (fmt : String) (args : List String) : Except PyErr String :=
  percentFormatGo fmt.data args

/-- `for line in result` where `result` is a Python `str` (which is what every
caller in src/telescope.py passes: `results['response']`): iteration yields the
one-character substrings of the string. -/
def charLines (result : String) : List String :=
  result.data.map (fun c => String.singleton c)

/-- The `for line in result: match = re.search(...); if match: break` loop of
`assign_outputs`: the value of `match` after the loop is the first match if any
line matched, else the (failed) search result of the last line, i.e. `None`. -/
def firstMatch (search : String → String → Option String) (pat : String) :
    List String → Option String
  | [] => none
  | l :: ls =>
    match search pat l with
    | some m => some m
    | none => firstMatch search pat ls

/-- `TelescopeInterface.assign_outputs` (src/telescope_interface.py lines
1003-1021), one output slot at a time.  `matchVar` models the Python local
`match`, which is only (re)assigned when `result` is non-empty and is read by
`if match:` even when left over from a previous slot (or never assigned —
`NameError` — when `result` is empty on the first slot).  A matched slot stores
`match.group(0)`; an unmatched optional slot is skipped with a warning; an
unmatched required slot runs
`self.logger.error('%s value is missing or invalid (%s).' % (key, result.strip()))`
and then
`raise ValueError('%s value is missing or invalid' % (key, result.strip()))` —
whose format string has one `%s` for two arguments, so the `%` itself raises
`TypeError` before any `ValueError` is constructed. -/
def assignOutputsGo (search : String → String → Option String) (result : String) :
    List (String × OutSlot) → Option (Option String) → Except PyErr (List (String × OutSlot))
  | [], _ => .ok []
  | (key, slot) :: rest, matchVar =>
    let lines := charLines result
    let newVar : Option (Option String) :=
      if lines.isEmpty then matchVar else some (firstMatch search slot.regex lines)
    match newVar with
    | none => .error .nameError
    | some (some txt) =>
      (assignOutputsGo search result rest (some (some txt))).map
        (fun tail => (key, { slot with value := some txt }) :: tail)
    | some none =>
      if slot.optional then
        (assignOutputsGo search result rest (some none)).map (fun tail => (key, slot) :: tail)
      else
        match percentFormat "%s value is missing or invalid (%s)." [key, result.trim] with
        | .error e => .error e
        | .ok _logged =>
          match percentFormat "%s value is missing or invalid" [key, result.trim] with
          | .error e => .error e
          | .ok msg => .error (.valueError msg)

/-- `assign_outputs(result)` over the declared output slots. -/
def assign_outputs (search : String → String → Option String)
    (outs : List (String × OutSlot)) (result : String) :
    Except PyErr (List (String × OutSlot)) :=
  assignOutputsGo search result outs none

/-- A concrete model of `re.search` for the one pattern these theorems exercise,
the `get_focus` output pattern `r'(?<=pos=)[0-9]+'`: scan for the first
occurrence of the literal `pos=` followed by at least one digit and return the
digit run.  Any one-character string yields no match, since the look-behind
alone needs four preceding characters. -/
def findPosDigits : List Char → Option String
  | [] => none
  | c :: rest =>
    match c, rest with
    | 'p', 'o' :: 's' :: '=' :: rest2 =>
      let ds := rest2.takeWhile Char.isDigit
      if ds.isEmpty then findPosDigits rest else some (String.mk ds)
    | _, _ => findPosDigits rest

/-- `re.search(pattern, line)` for the `get_focus` pattern. -/
def searchFocusRegex (pat line : String) : Option String :=
  if pat = "(?<=pos=)[0-9]+" then findPosDigits line.data else none

end Catalog

namespace Catalog

/-- Equality on embedded Python results is decidable. -/
instance {e a : Type} [DecidableEq e] [DecidableEq a] : DecidableEq (Except e a) := fun x y =>
  match x, y with
  | .ok v, .ok w => if h : v = w then isTrue (by rw [h]) else isFalse (by simp [h])
  | .error v, .error w => if h : v = w then isTrue (by rw [h]) else isFalse (by simp [h])
  | .ok _, .error _ => isFalse (by simp)
  | .error _, .ok _ => isFalse (by simp)

/-- **C4.** Evaluation of `assign_outputs` on the `get_focus` interface and the
well-formed response `"pos=42"`: the regex would match the full response line
(yielding `"42"`), but the code iterates the *characters* of the response string,
none of which can match, so the required slot `pos` takes the missing-value path —
and that path raises `TypeError` from the one-placeholder/two-argument `%`
expression in the `raise` statement, not a `ValueError` carrying the slot name
and raw response. -/
theorem assign_outputs_missing_required_raises_typeerror :
    searchFocusRegex "(?<=pos=)[0-9]+" "pos=42" = some "42"
    ∧ (List.lookup "get_focus" telescopeInterfaces).map
        (fun s => assign_outputs searchFocusRegex s.outputs "pos=42")
      = some (.error .typeError) := by
  decide

end Catalog

namespace Catalog

/-- Value lookup inside `str.format`: a placeholder key missing from the keyword
arguments raises `KeyError`; a key bound to Python `None` renders as the string
`"None"` (`format` applies `str()`); a bound string renders as itself. -/
def lookupVal (vals : List (String × Option String)) (key : String) : Except PyErr String :=
  match vals.lookup key with
  | none => .error (.keyError key)
  | some none => .ok "None"
  | some (some v) => .ok v

/-- `template.format(**inputs)` for the brace templates of the catalog (none of
which contain `\x7b\x7b`/`\x7d\x7d` escapes): text is copied, `\x7b` opens a
placeholder whose key runs to the next `\x7d`, and a stray closing brace or an
unterminated placeholder raises `ValueError` as in CPython. -/
def pyFormatGo (vals : List (String × Option String)) :
    List Char → List Char → Bool → Except PyErr String
  | [], _, inPh =>
    if inPh then .error (.valueError "expected brace before end of string") else .ok ""
  | c :: cs, keyAcc, true =>
    if c = '\x7d' then
      match lookupVal vals (String.mk keyAcc.reverse) with
      | .error e => .error e
      | .ok v => (pyFormatGo vals cs [] false).map (fun r => v ++ r)
    else pyFormatGo vals cs (c :: keyAcc) true
  | c :: cs, keyAcc, false =>
    if c = '\x7b' then pyFormatGo vals cs [] true
    else if c = '\x7d' then .error (.valueError "single brace encountered")
    else (pyFormatGo vals cs keyAcc false).map (fun r => String.singleton c ++ r)

/-- `template.format(**inputs)`. -/
def pyFormat (tmpl : String) (vals : List (String × Option String)) : Except PyErr String :=
  pyFormatGo vals tmpl.data [] false

/-- The keyword-argument dict `inputs` built by `assign_inputs`:
`inputs[key] = self.get_input_value(key)` for each declared input slot. -/
def specInputVals (s : Spec) : List (String × Option String) :=
  s.inputs.map (fun p => (p.1, p.2.value))

/-- `TelescopeInterface.assign_inputs` (src/telescope_interface.py lines
1024-1029): collect every input slot value and substitute into the command
template. -/
def assign_inputs (s : Spec) : Except PyErr String :=
  pyFormat s.command (specInputVals s)

/-- The module-level `telescope_interfaces` dict, which `TelescopeInterface.assign`
returns by reference, so instance operations write through to it. -/
abbrev Store := List (String × Spec)

/-- Update the catalog entry `name` in place. -/
def updateSpec (st : Store) (name : String) (f : Spec → Spec) : Store :=
  st.map (fun p => if p.1 = name then (p.1, f p.2) else p)

/-- `self.command['inputs'][key]['value'] = value` (a missing key raises before
any mutation, leaving the store unchanged). -/
def setInSlot (ins : List (String × InSlot)) (key v : String) : List (String × InSlot) :=
  ins.map (fun p => if p.1 = key then (p.1, { p.2 with value := some v }) else p)

/-- `TelescopeInterface.set_input_value` writing through the shared catalog. -/
def set_input_value (st : Store) (name key v : String) : Store :=
  updateSpec st name (fun s => { s with inputs := setInSlot s.inputs key v })

/-- `self.command['outputs'][key]['value'] = value`. -/
def setOutSlot (outs : List (String × OutSlot)) (key : String) (v : Option String) :
    List (String × OutSlot) :=
  outs.map (fun p => if p.1 = key then (p.1, { p.2 with value := v }) else p)

/-- `TelescopeInterface.set_output_value` writing through the shared catalog. -/
def set_output_value (st : Store) (name key : String) (v : Option String) : Store :=
  updateSpec st name (fun s => { s with outputs := setOutSlot s.outputs key v })

/-- `set_defaults`: every output value is reset to `get_output_default` (always
`None` — no catalog output carries a `default` key) and every input value to
`get_input_default` (the `default` entry, or `None` when absent). -/
def resetSpec (s : Spec) : Spec :=
  { s with
    inputs := s.inputs.map (fun p => (p.1, { p.2 with value := p.2.dflt })),
    outputs := s.outputs.map (fun p => (p.1, { p.2 with value := none })) }

/-- `TelescopeInterface.__init__`: `assign(name)` aliases the catalog entry
(raising `ValueError` before any mutation when `name` is unknown), then
`set_defaults()` resets its value fields through the alias. -/
def instantiate (st : Store) (name : String) : Store :=
  updateSpec st name resetSpec

/-- The catalog-mutating operations a `TelescopeInterface` instance performs. -/
inductive Op where
  | init (name : String)
  | setIn (name key v : String)
  | setOut (name key : String) (v : Option String)
deriving DecidableEq, Repr

/-- Apply one operation to the shared catalog. -/
def applyOp (st : Store) : Op → Store
  | .init name => instantiate st name
  | .setIn name key v => set_input_value st name key v
  | .setOut name key v => set_output_value st name key v

/-- Apply a sequence of instance operations to the shared catalog. -/
def applyOps (st : Store) (ops : List Op) : Store :=
  ops.foldl applyOp st

/-- The static part of a catalog entry: command template, execution mode, input
slot names with their defaults, output slot names with pattern, type and
optional flag — everything except the mutable `value` fields. -/
structure StaticSpec where
  command : String
  isBackground : Option Bool
  inputs : List (String × Option String)
  outputs : List (String × String × String × Bool)
deriving DecidableEq, Repr

/-- Project a catalog entry onto its static part. -/
def staticPart (s : Spec) : StaticSpec :=
  { command := s.command,
    isBackground := s.isBackground,
    inputs := s.inputs.map (fun p => (p.1, p.2.dflt)),
    outputs := s.outputs.map (fun p => (p.1, p.2.regex, p.2.ty, p.2.optional)) }

/-- Project the whole catalog onto its static parts. -/
def staticStore (st : Store) : List (String × StaticSpec) :=
  st.map (fun p => (p.1, staticPart p.2))

end Catalog

namespace Catalog

/-- A string containing no brace characters, i.e. no unresolved placeholder and
no stray brace. -/
def braceFree (s : String) : Bool :=
  s.data.all (fun c => (c != '\x7b') && (c != '\x7d'))

/-- Template well-formedness along the `pyFormatGo` scan: every opened
placeholder is closed and no stray closing brace occurs. -/
def wfT : List Char → Bool → Bool
  | [], inPh => !inPh
  | c :: cs, true => if c = '\x7d' then wfT cs false else wfT cs true
  | c :: cs, false =>
    if c = '\x7b' then wfT cs true
    else if c = '\x7d' then false
    else wfT cs false

/-- The placeholder keys consumed by the `pyFormatGo` scan. -/
def phKeys : List Char → List Char → Bool → List String
  | [], _, _ => []
  | c :: cs, keyAcc, true =>
    if c = '\x7d' then String.mk keyAcc.reverse :: phKeys cs [] false
    else phKeys cs (c :: keyAcc) true
  | c :: cs, keyAcc, false =>
    if c = '\x7b' then phKeys cs [] true
    else if c = '\x7d' then []
    else phKeys cs keyAcc false

/-- Rendering a well-formed template whose every placeholder key is bound to a
brace-free string succeeds and yields a brace-free result. -/
theorem pyFormatGo_ok (vals : List (String × Option String)) (cs : List Char) :
    ∀ (keyAcc : List Char) (inPh : Bool),
    wfT cs inPh = true →
    (∀ k, k ∈ phKeys cs keyAcc inPh →
      ∃ v, vals.lookup k = some (some v) ∧ braceFree v = true) →
    ∃ r, pyFormatGo vals cs keyAcc inPh = .ok r ∧ braceFree r = true := by
  induction cs with
  | nil =>
    intro keyAcc inPh hwf _
    cases inPh with
    | false => exact ⟨"", rfl, rfl⟩
    | true => simp [wfT] at hwf
  | cons c cs ih =>
    intro keyAcc inPh hwf hcov
    cases inPh with
    | true =>
      by_cases hc : c = '\x7d'
      · subst hc
        obtain ⟨v, hv, hbv⟩ := hcov (String.mk keyAcc.reverse) (by simp [phKeys])
        have hwf2 : wfT cs false = true := by simpa [wfT] using hwf
        have hcov2 : ∀ k, k ∈ phKeys cs [] false →
            ∃ v, vals.lookup k = some (some v) ∧ braceFree v = true := by
          intro k hk
          exact hcov k (by simp [phKeys, hk])
        obtain ⟨r, hr, hbr⟩ := ih [] false hwf2 hcov2
        refine ⟨v ++ r, ?_, ?_⟩
        · simp [pyFormatGo, lookupVal, hv, hr, Except.map]
        · simp only [braceFree, String.data_append, List.all_append, Bool.and_eq_true]
          exact ⟨hbv, hbr⟩
      · have hwf2 : wfT cs true = true := by simpa [wfT, hc] using hwf
        have hcov2 : ∀ k, k ∈ phKeys cs (c :: keyAcc) true →
            ∃ v, vals.lookup k = some (some v) ∧ braceFree v = true := by
          intro k hk
          exact hcov k (by simp [phKeys, hc, hk])
        obtain ⟨r, hr, hbr⟩ := ih (c :: keyAcc) true hwf2 hcov2
        refine ⟨r, ?_, hbr⟩
        simp [pyFormatGo, hc, hr]
    | false =>
      by_cases hb : c = '\x7b'
      · subst hb
        have hwf2 : wfT cs true = true := by simpa [wfT] using hwf
        have hcov2 : ∀ k, k ∈ phKeys cs [] true →
            ∃ v, vals.lookup k = some (some v) ∧ braceFree v = true := by
          intro k hk
          exact hcov k (by simp [phKeys, hk])
        obtain ⟨r, hr, hbr⟩ := ih [] true hwf2 hcov2
        refine ⟨r, ?_, hbr⟩
        simp [pyFormatGo, hr]
      · by_cases hd : c = '\x7d'
        · subst hd
          simp [wfT, hb] at hwf
        · have hwf2 : wfT cs false = true := by simpa [wfT, hb, hd] using hwf
          have hcov2 : ∀ k, k ∈ phKeys cs keyAcc false →
              ∃ v, vals.lookup k = some (some v) ∧ braceFree v = true := by
            intro k hk
            exact hcov k (by simp [phKeys, hb, hd, hk])
          obtain ⟨r, hr, hbr⟩ := ih keyAcc false hwf2 hcov2
          refine ⟨String.singleton c ++ r, ?_, ?_⟩
          · simp [pyFormatGo, hb, hd, hr, Except.map]
          · simp only [braceFree, String.data_append, List.all_append, Bool.and_eq_true]
            refine ⟨?_, hbr⟩
            simp [String.singleton, hb, hd]

end Catalog

namespace Catalog

/-- `List.lookup` through a value-transforming map that preserves keys. -/
theorem lookup_map_value {A B : Type} (k : String) (l : List (String × A))
    (f : String → A → B) :
    List.lookup k (l.map (fun p => (p.1, f p.1 p.2))) = (List.lookup k l).map (f k) := by
  induction l with
  | nil => rfl
  | cons p t ih =>
    obtain ⟨a, b⟩ := p
    by_cases h : k == a
    · have hk : k = a := eq_of_beq h
      subst hk
      simp [List.lookup]
    · simp [List.lookup, h, ih]

/-- A key contained in the key list has a successful lookup. -/
theorem lookup_isSome_of_contains {A : Type} (k : String) (l : List (String × A))
    (h : (l.map Prod.fst).contains k = true) : (List.lookup k l).isSome = true := by
  induction l with
  | nil => simp at h
  | cons p t ih =>
    obtain ⟨a, b⟩ := p
    by_cases hk : k == a
    · simp [List.lookup, hk]
    · simp only [List.map_cons, List.contains_cons] at h
      rcases Bool.or_eq_true_iff.mp h with h1 | h1
      · exact absurd h1 (by simpa using hk)
      · simp [List.lookup, hk, ih h1]

/-- The per-entry render check: the command template is well formed and every
placeholder key names a declared input slot. -/
def specCovered (s : Spec) : Bool :=
  wfT s.command.data false
    && (phKeys s.command.data [] false).all
        (fun k => (s.inputs.map Prod.fst).contains k)

set_option maxRecDepth 8000 in
/-- Every registered `telescope_interfaces` entry passes the render check. -/
theorem catalog_specs_covered :
    telescopeInterfaces.all (fun p => specCovered p.2) = true := by
  decide

end Catalog

namespace Catalog

/-- `set_input_value` applied to every declared input slot: the state of a Bound
Interface once all inputs are bound to concrete values. -/
def bindAll (s : Spec) (v : String → String) : Spec :=
  { s with inputs := s.inputs.map (fun p => (p.1, { p.2 with value := some (v p.1) })) }

/-- Rendering succeeded and the produced command string contains no unresolved
placeholder (no brace characters remain). -/
def renderOk (s : Spec) : Bool :=
  match assign_inputs s with
  | .ok r => braceFree r
  | .error _ => false

/-- The keyword dict seen by `format` after binding every input. -/
theorem specInputVals_bindAll (s : Spec) (v : String → String) :
    specInputVals (bindAll s v) = s.inputs.map (fun p => (p.1, some (v p.1))) := by
  simp [specInputVals, bindAll, List.map_map]

/-- **C8 (amended).** For every registered CommandSpec, rendering with every input
slot bound to a brace-free value produces the command template with all named
placeholders substituted and no unresolved placeholder remaining.  Rendering
while an input slot is unbound, however, does not fail: `format` stringifies the
slot's `None` value, so the freshly instantiated `track` interface renders as
the command string `"tx track None"`. -/
theorem render_all_bound_no_unresolved_placeholders
    (name : String) (spec : Spec) (h : (name, spec) ∈ telescopeInterfaces)
    (v : String → String) (hv : ∀ k, braceFree (v k) = true) :
    renderOk (bindAll spec v) = true
    ∧ (List.lookup "track" telescopeInterfaces).map (fun s => assign_inputs (resetSpec s))
        = some (.ok "tx track None") := by
  refine ⟨?_, by decide⟩
  have hcv : specCovered spec = true := by
    have hall := List.all_eq_true.mp catalog_specs_covered (name, spec) h
    exact hall
  rw [specCovered, Bool.and_eq_true] at hcv
  obtain ⟨hwf, hcov⟩ := hcv
  have hcov2 : ∀ k, k ∈ phKeys spec.command.data [] false →
      ∃ w, (specInputVals (bindAll spec v)).lookup k = some (some w) ∧ braceFree w = true := by
    intro k hk
    have hk0 := List.all_eq_true.mp hcov k hk
    have hsome : (List.lookup k spec.inputs).isSome = true :=
      lookup_isSome_of_contains k spec.inputs hk0
    obtain ⟨slot, hslot⟩ := Option.isSome_iff_exists.mp hsome
    refine ⟨v k, ?_, hv k⟩
    rw [specInputVals_bindAll]
    rw [lookup_map_value k spec.inputs (fun k _ => some (v k))]
    rw [hslot]
    rfl
  obtain ⟨r, hr, hbr⟩ :=
    pyFormatGo_ok (specInputVals (bindAll spec v)) spec.command.data [] false hwf hcov2
  have hcmd : (bindAll spec v).command = spec.command := rfl
  rw [renderOk]
  rw [assign_inputs, pyFormat, hcmd]
  rw [hr]
  exact hbr

end Catalog

namespace Catalog

/-- The first catalog entry, `telescope_interfaces['track']`. -/
def trackSpec : Spec :=
  { command := "tx track {on_off}",
    isBackground := none,
    inputs := [("on_off", { value := none, dflt := none })],
    outputs :=
      [("ha", { regex := "(?<=ha=).*?(?= )", value := none, ty := "float", optional := false }),
       ("dec", { regex := "(?<=dec=).*?$", value := none, ty := "float", optional := false })] }

/-- Witness for C8: the `track` interface with its one input bound renders with no
unresolved placeholder. -/
theorem render_all_bound_no_unresolved_placeholders_witness :
    renderOk (bindAll trackSpec (fun _ => "on")) = true
    ∧ (List.lookup "track" telescopeInterfaces).map (fun s => assign_inputs (resetSpec s))
        = some (.ok "tx track None") :=
  render_all_bound_no_unresolved_placeholders "track" trackSpec (by decide)
    (fun _ => "on") (by intro k; exact (by decide : braceFree "on" = true))

/-- **C8 counterexample.** Rendering the freshly instantiated `track` interface,
whose required input `on_off` is unbound (value `None`, no default), does not
fail: it produces the command string `"tx track None"`. -/
theorem render_unbound_input_produces_command_string :
    assign_inputs (resetSpec trackSpec) = .ok "tx track None"
    ∧ (resetSpec trackSpec).inputs.lookup "on_off" = some { value := none, dflt := none } := by
  decide

/-- **C9 counterexample.** Binding an input on a Bound Interface writes through to
the module-level catalog: after `set_input_value("on_off", "on")` on the `track`
interface, the catalog entry for `track` differs from its registered state. -/
theorem set_input_value_mutates_catalog :
    List.lookup "track" (set_input_value telescopeInterfaces "track" "on_off" "on")
      ≠ List.lookup "track" telescopeInterfaces := by
  decide

/-- `set_input_value` does not change the static part of any entry. -/
theorem staticPart_setInputs (s : Spec) (key v : String) :
    staticPart { s with inputs := setInSlot s.inputs key v } = staticPart s := by
  simp only [staticPart, setInSlot, List.map_map, StaticSpec.mk.injEq, true_and, and_true]
  apply List.map_congr_left
  intro p _
  by_cases h : p.1 = key <;> simp [h]

/-- `set_output_value` does not change the static part of any entry. -/
theorem staticPart_setOutputs (s : Spec) (key : String) (v : Option String) :
    staticPart { s with outputs := setOutSlot s.outputs key v } = staticPart s := by
  simp only [staticPart, setOutSlot, List.map_map, StaticSpec.mk.injEq, true_and, and_true]
  apply List.map_congr_left
  intro p _
  by_cases h : p.1 = key <;> simp [h]

/-- `set_defaults` does not change the static part of any entry. -/
theorem staticPart_resetSpec (s : Spec) : staticPart (resetSpec s) = staticPart s := by
  simp only [staticPart, resetSpec, List.map_map, StaticSpec.mk.injEq, true_and, and_true]
  constructor <;> rfl

/-- Updating one entry with a static-part-preserving function preserves the
static catalog. -/
theorem staticStore_updateSpec (st : Store) (name : String) (f : Spec → Spec)
    (hf : ∀ s, staticPart (f s) = staticPart s) :
    staticStore (updateSpec st name f) = staticStore st := by
  simp only [staticStore, updateSpec, List.map_map]
  apply List.map_congr_left
  intro p _
  by_cases h : p.1 = name <;> simp [h, hf]

/-- Any single instance operation preserves the static catalog. -/
theorem staticStore_applyOp (st : Store) (op : Op) :
    staticStore (applyOp st op) = staticStore st := by
  cases op with
  | init name => exact staticStore_updateSpec st name resetSpec staticPart_resetSpec
  | setIn name key v =>
    exact staticStore_updateSpec st name _ (fun s => staticPart_setInputs s key v)
  | setOut name key v =>
    exact staticStore_updateSpec st name _ (fun s => staticPart_setOutputs s key v)

/-- Any sequence of instance operations preserves the static catalog. -/
theorem staticStore_applyOps (ops : List Op) :
    ∀ st, staticStore (applyOps st ops) = staticStore st := by
  induction ops with
  | nil => intro st; rfl
  | cons op ops ih =>
    intro st
    exact (ih (applyOp st op)).trans (staticStore_applyOp st op)

/-- Lookup after an in-place entry update. -/
theorem lookup_updateSpec (st : Store) (name : String) (f : Spec → Spec) :
    List.lookup name (updateSpec st name f) = (List.lookup name st).map f := by
  induction st with
  | nil => rfl
  | cons p t ih =>
    obtain ⟨a, s⟩ := p
    simp only [updateSpec, List.map_cons]
    by_cases h : a = name
    · subst h
      rw [if_pos rfl]
      simp [List.lookup]
    · rw [if_neg h]
      have hb : (name == a) = false := beq_eq_false_iff_ne.mpr (Ne.symm h)
      simp only [List.lookup, hb]
      exact ih

/-- Lookup through the static projection of the catalog. -/
theorem lookup_staticStore (st : Store) (name : String) :
    List.lookup name (staticStore st) = (List.lookup name st).map staticPart := by
  induction st with
  | nil => rfl
  | cons p t ih =>
    obtain ⟨a, s⟩ := p
    by_cases h : (name == a) = true
    · simp [staticStore, List.lookup, h]
    · rw [Bool.not_eq_true] at h
      simp only [staticStore, List.map_cons, List.lookup, h]
      exact ih

/-- Rebuild a freshly instantiated entry from its static part alone. -/
def ofStatic (t : StaticSpec) : Spec :=
  { command := t.command,
    isBackground := t.isBackground,
    inputs := t.inputs.map (fun p => (p.1, { value := p.2, dflt := p.2 })),
    outputs := t.outputs.map (fun q => (q.1,
      { regex := q.2.1, value := none, ty := q.2.2.1, optional := q.2.2.2 })) }

/-- `set_defaults` is determined by the static part. -/
theorem resetSpec_eq_ofStatic (s : Spec) : resetSpec s = ofStatic (staticPart s) := by
  simp only [resetSpec, ofStatic, staticPart, List.map_map]
  rfl

/-- **C9 (amended).** Instance operations (binding inputs, storing outputs,
re-instantiation) write only the `value` fields of the shared catalog: the static
catalog — templates, defaults, patterns, types, optional flags — is unchanged by
any sequence of operations, and instantiating a name after any such sequence
yields exactly the same entry state (all values reset to defaults) as
instantiating it from the registered catalog; so two successive instantiations
observe identical slot defaults. -/
theorem catalog_static_part_preserved (ops : List Op) (name : String) :
    staticStore (applyOps telescopeInterfaces ops) = staticStore telescopeInterfaces
    ∧ List.lookup name (instantiate (applyOps telescopeInterfaces ops) name)
        = List.lookup name (instantiate telescopeInterfaces name) := by
  have hss := staticStore_applyOps ops telescopeInterfaces
  refine ⟨hss, ?_⟩
  have h1 : (List.lookup name (applyOps telescopeInterfaces ops)).map staticPart
      = (List.lookup name telescopeInterfaces).map staticPart := by
    rw [← lookup_staticStore, ← lookup_staticStore, hss]
  rw [instantiate, instantiate, lookup_updateSpec, lookup_updateSpec]
  cases h2 : List.lookup name (applyOps telescopeInterfaces ops) with
  | none =>
    cases h3 : List.lookup name telescopeInterfaces with
    | none => rfl
    | some s2 =>
      rw [h2, h3] at h1
      simp at h1
  | some s =>
    cases h3 : List.lookup name telescopeInterfaces with
    | none =>
      rw [h2, h3] at h1
      simp at h1
    | some s2 =>
      rw [h2, h3] at h1
      simp only [Option.map_some'] at h1 ⊢
      have hsp : staticPart s = staticPart s2 := Option.some.inj h1
      rw [resetSpec_eq_ofStatic, resetSpec_eq_ofStatic, hsp]

end Catalog

namespace Transport

/-- A Python exception object thrown by the underlying paramiko calls: its class
name and its attribute dictionary.  In Python 3 — which this codebase targets
(it uses f-strings) — `BaseException` and its subclasses define no `message`
attribute, so the corresponding `attrs` list has no `"message"` entry. -/
structure ExtExc where
  name : String
  attrs : List (String × String)
deriving DecidableEq, Repr

/-- Exceptions crossing the embedded `SSH` boundary: either an external
exception from paramiko, or an `AttributeError` raised by the handler itself
when it evaluates `e.message`. -/
inductive SshErr where
  | ext (e : ExtExc)
  | attributeError (attr : String)
deriving DecidableEq, Repr

/-- Python attribute access `e.message`: `AttributeError` when absent. -/
def excMessage (e : ExtExc) : Except SshErr String :=
  match e.attrs.lookup "message" with
  | some m => .ok m
  | none => .error (.attributeError "message")

/-- Outcomes of the underlying paramiko calls, supplied by the environment:
`SSHClient.connect` and `exec_command` (stdout lines, stderr lines). -/
structure SshEnv where
  connectRes : Except ExtExc Unit
  execRes : String → Except ExtExc (List String × List String)

/-- The `result` dict built by `SSH.command`. -/
structure CmdResult where
  response : Option String
  stdout : List String
  stderr : List String
deriving DecidableEq, Repr

/-- `SSH.command` (src/telescope.py lines 30-53): initialise the result dict;
run `exec_command` and fill in stdout/stderr and `response` (first stdout line,
else first stderr line — logged as an error — else the literal
`"Invalid response."`).  On an exception the handler runs
`self.logger.error('SSH command failed. Exception (%s).' % e.message)`; in
Python 3 `e.message` raises `AttributeError`, which escapes `command` before
the `return result` line is reached. -/
def command (env : SshEnv) (cmd : String) : Except SshErr CmdResult :=
  match env.execRes cmd with
  | .ok (out, err) =>
    match out with
    | o :: _ => .ok { response := some o, stdout := out, stderr := err }
    | [] =>
      match err with
      | e :: _ => .ok { response := some e, stdout := out, stderr := err }
      | [] => .ok { response := some "Invalid response.", stdout := out, stderr := err }
  | .error e =>
    match excMessage e with
    | .error x => .error x
    | .ok _ => .ok { response := none, stdout := [], stderr := [] }

/-- `SSH.connect` (src/telescope.py lines 19-28): `ssh.connect` then the probe
`self.command('echo its alive')`, returning `True`; any exception reaches the
handler, whose `'...' % e.message` raises `AttributeError` in Python 3 (an
`AttributeError` instance itself has no `message` attribute either), so the
intended `return False` is never reached on the failure path. -/
def connect (env : SshEnv) : Except SshErr Bool :=
  match env.connectRes with
  | .ok _ =>
    match command env "echo its alive" with
    | .ok _ => .ok true
    | .error x =>
      match x with
      | .ext e =>
        match excMessage e with
        | .error y => .error y
        | .ok _ => .ok false
      | .attributeError _ => .error (.attributeError "message")
  | .error e =>
    match excMessage e with
    | .error x => .error x
    | .ok _ => .ok false

/-- **C5.** Evaluation of the transport boundary at failing inputs.  With a
Python-3 exception (no `message` attribute) from `SSHClient.connect`, `connect()`
raises `AttributeError` across its own boundary instead of logging and returning
`False`; likewise `command()` raises instead of returning the empty result dict.
Only for a hypothetical Python-2-style exception carrying a `message` attribute
does `connect()` behave as specified and return `False`. -/
theorem connect_raises_attributeerror_on_failure :
    connect { connectRes := .error { name := "SSHException", attrs := [] },
              execRes := fun _ => .ok ([], []) }
      = .error (.attributeError "message")
    ∧ command { connectRes := .ok (), execRes := fun _ => .error { name := "SSHException", attrs := [] } }
        "tx track"
      = .error (.attributeError "message")
    ∧ connect { connectRes := .error { name := "SSHException", attrs := [("message", "fail")] },
                execRes := fun _ => .ok ([], []) }
      = .ok false := by
  decide

end Transport
